import Mathlib

set_option maxRecDepth 16384

/-
Shallow embedding of `src/formant_client.py` (SirWilliamIII/robot-checker).

The module provides:
  * `FormantClientRequestError` — a classified error with a `retryable`
    flag whose Python constructor default is `True`;
  * `formant_client_retry_on_failure` — a retry decorator that invokes the
    wrapped operation up to `max_retries` times, re-raising non-retryable
    errors immediately, logging a warning per retried attempt, and raising
    a bare "Request failed after N retries" error on exhaustion;
  * `FormantClient` with `_authenticate` (login + header caching),
    `query_robots` (single page query) and `get_task_list_for_device_sync`
    (paginated fetch with page size 100).

Python exceptions are embedded as an explicit result type `PyResult`;
mutation of `self` is embedded as explicit state passing over
`ClientState`; the HTTP layer is a function from a request counter (or a
page offset) to the backend's response.
-/

namespace Formant

/-- Embeds the class `FormantClientRequestError` of `formant_client.py`
(lines 6-15): a message plus a `retryable` classification flag. -/
structure FormantClientRequestError where
  message : String
  retryable : Bool
  deriving Repr, DecidableEq

/-- Embeds a constructor call `FormantClientRequestError(message)` that
omits the `retryable` argument: the Python default (line 10) is `True`. -/
def mkFormantError (message : String) : FormantClientRequestError :=
  ⟨message, true⟩

/-- Outcome of running a piece of Python code that may raise: a normal
return value, a raised `FormantClientRequestError`, or any other raised
exception (e.g. `AttributeError`), which the retry decorator's
`except FormantClientRequestError` clause does not catch. -/
inductive PyResult (α : Type) where
  | ok : α → PyResult α
  | fcre : FormantClientRequestError → PyResult α
  | other : String → PyResult α
  deriving Repr, DecidableEq

/-- Module-level constant `NUM_RETRIES = 5` (line 4). -/
def NUM_RETRIES : Nat := 5

/-- The exhaustion error raised at lines 39-41:
`FormantClientRequestError(f"Request failed after {max_retries} retries")`,
a bare construction, hence `retryable` takes the default `True`. -/
def retriesExhaustedError (max_retries : Nat) : FormantClientRequestError :=
  mkFormantError ("Request failed after " ++ toString max_retries ++ " retries")

/-- Observable outcome of one run of the decorated wrapper (lines 26-42):
the value returned or error raised, the number of `logging.warning`
entries emitted (one per retried attempt, line 33-35), and the number of
invocations of the wrapped function. `result = .ok none` is the
`return None` taken when `propegrate_error` is false. -/
structure RetryRun (α : Type) where
  result : PyResult (Option α)
  warnings : Nat
  invocations : Nat
  deriving Repr, DecidableEq

/-- The `for i in range(max_retries)` loop of the wrapper (lines 27-42)
over a pure attempt function `f` giving the outcome of the i-th
invocation. Arguments after the colon: remaining loop iterations, next
invocation index `i`, warnings emitted so far. -/
def retryGo {α : Type} (f : Nat → PyResult α) (max_retries : Nat)
    (propegrate_error : Bool) : Nat → Nat → Nat → RetryRun α
  | 0, i, warn =>
      if propegrate_error then ⟨.fcre (retriesExhaustedError max_retries), warn, i⟩
      else ⟨.ok none, warn, i⟩
  | rem + 1, i, warn =>
      match f i with
      | .ok a => ⟨.ok (some a), warn, i + 1⟩
      | .fcre e =>
          if e.retryable = false then ⟨.fcre e, warn, i + 1⟩
          else retryGo f max_retries propegrate_error rem (i + 1) (warn + 1)
      | .other m => ⟨.other m, warn, i + 1⟩

/-- Embeds `formant_client_retry_on_failure(max_retries, propegrate_error)`
(lines 18-46) applied to a wrapped operation whose i-th invocation
has outcome `f i`. -/
def formant_client_retry_on_failure {α : Type} (max_retries : Nat)
    (propegrate_error : Bool) (f : Nat → PyResult α) : RetryRun α :=
  retryGo f max_retries propegrate_error max_retries 0 0

/-- The mutable state of a `FormantClient` instance together with the
request counters of the HTTP world: the `_authenticated_headers` dict
(line 59), the number of login POSTs issued to `/auth/login`, and the
number of POSTs issued to `/devices/query`. -/
structure ClientState where
  authenticated_headers : List (String × String)
  loginRequests : Nat
  queryRequests : Nat
  deriving Repr, DecidableEq

/-- The same decorator loop (lines 26-42) for a stateful attempt
function: a failed attempt's mutations of `self` (and the requests it
issued) persist into the next attempt, exactly as in Python. Arguments
after the colon: remaining iterations, current state, warnings so far,
invocations so far. -/
def retryStGo {α : Type} (f : ClientState → ClientState × PyResult α)
    (max_retries : Nat) (propegrate_error : Bool) :
    Nat → ClientState → Nat → Nat → ClientState × RetryRun α
  | 0, s, warn, inv =>
      if propegrate_error then
        (s, ⟨.fcre (retriesExhaustedError max_retries), warn, inv⟩)
      else (s, ⟨.ok none, warn, inv⟩)
  | rem + 1, s, warn, inv =>
      match f s with
      | (s2, .ok a) => (s2, ⟨.ok (some a), warn, inv + 1⟩)
      | (s2, .fcre e) =>
          if e.retryable = false then (s2, ⟨.fcre e, warn, inv + 1⟩)
          else retryStGo f max_retries propegrate_error rem s2 (warn + 1) (inv + 1)
      | (s2, .other m) => (s2, ⟨.other m, warn, inv + 1⟩)

/-- Backend response to a `POST /auth/login` request (lines 82-84). -/
structure LoginResp where
  status_code : Nat
  accessToken : String
  text : String
  deriving Repr, DecidableEq

/-- The error raised at lines 94-96:
`FormantClientRequestError(f"Failed to authenticate... {response.text}")`,
constructed without the `retryable` argument. -/
def authFailureError (text : String) : FormantClientRequestError :=
  mkFormantError ("Failed to authenticate... " ++ text)

/-- The headers stored at lines 89-92 on a 200 login response. -/
def bearerHeaders (token : String) : List (String × String) :=
  [("authorization", "Bearer " ++ token), ("content-type", "application/json")]

/-- One attempt of `_authenticate` (body at lines 69-96): return
immediately if headers are cached; otherwise issue the next login POST
(the backend's response to login request number `s.loginRequests` is
`login_backend s.loginRequests`), store the bearer headers on 200, raise
`authFailureError` otherwise. -/
def authenticate_attempt (login_backend : Nat → LoginResp) (s : ClientState) :
    ClientState × PyResult Unit :=
  if 0 < s.authenticated_headers.length then (s, .ok ())
  else
    let r := login_backend s.loginRequests
    let s2 : ClientState := { s with loginRequests := s.loginRequests + 1 }
    if r.status_code = 200 then
      ({ s2 with authenticated_headers := bearerHeaders r.accessToken }, .ok ())
    else (s2, .fcre (authFailureError r.text))

/-- `_authenticate` with its decorator
`@formant_client_retry_on_failure(max_retries=NUM_RETRIES)` (line 68). -/
def authenticate (login_backend : Nat → LoginResp) (s : ClientState) :
    ClientState × RetryRun Unit :=
  retryStGo (authenticate_attempt login_backend) NUM_RETRIES true NUM_RETRIES s 0 0

/-- `_get_authenticated_headers` (lines 98-103): call `_authenticate`
(errors propagate), then return the cached headers. -/
def get_authenticated_headers (login_backend : Nat → LoginResp) (s : ClientState) :
    ClientState × PyResult (List (String × String)) :=
  match authenticate login_backend s with
  | (s2, run) =>
      match run.result with
      | .ok _ => (s2, .ok s2.authenticated_headers)
      | .fcre e => (s2, .fcre e)
      | .other m => (s2, .other m)

/-- Backend response to a `POST /devices/query` request (lines 116-120):
`items = none` embeds a 200 response whose body makes
`response.json()["items"]` raise (the exception text is `errText`). -/
structure QueryResp (α : Type) where
  status_code : Nat
  items : Option (List α)
  errText : String
  text : String
  deriving Repr, DecidableEq

/-- The error raised at line 126:
`FormantClientRequestError(f"Failed to query robots: {e}")`,
constructed without the `retryable` argument. -/
def queryItemsError (e : String) : FormantClientRequestError :=
  mkFormantError ("Failed to query robots: " ++ e)

/-- The error raised at lines 128-130:
`FormantClientRequestError(f"Failed to query robots... {response.text}")`,
constructed without the `retryable` argument. -/
def queryStatusError (text : String) : FormantClientRequestError :=
  mkFormantError ("Failed to query robots... " ++ text)

/-- One attempt of `query_robots` (body at lines 111-130): obtain headers
(errors from `_get_authenticated_headers` propagate before the query POST
is issued), then issue the query; on 200 extract the items or raise
`queryItemsError`; on non-200 raise `queryStatusError`. -/
def query_robots_attempt {α : Type} (login_backend : Nat → LoginResp)
    (query_backend : Nat → QueryResp α) (s : ClientState) :
    ClientState × PyResult (List α) :=
  match get_authenticated_headers login_backend s with
  | (s2, .fcre e) => (s2, .fcre e)
  | (s2, .other m) => (s2, .other m)
  | (s2, .ok _) =>
      let r := query_backend s2.queryRequests
      let s3 : ClientState := { s2 with queryRequests := s2.queryRequests + 1 }
      if r.status_code = 200 then
        match r.items with
        | some items => (s3, .ok items)
        | none => (s3, .fcre (queryItemsError r.errText))
      else (s3, .fcre (queryStatusError r.text))

/-- `query_robots` with its decorator
`@formant_client_retry_on_failure(max_retries=NUM_RETRIES)` (line 105). -/
def query_robots {α : Type} (login_backend : Nat → LoginResp)
    (query_backend : Nat → QueryResp α) (s : ClientState) :
    ClientState × RetryRun (List α) :=
  retryStGo (query_robots_attempt login_backend query_backend)
    NUM_RETRIES true NUM_RETRIES s 0 0

/-- Backend response to a `POST /events/query` page request
(lines 157-159). -/
structure PageResp (α : Type) where
  status_code : Nat
  items : List α
  text : String
  deriving Repr, DecidableEq

/-- The error the constructor call at lines 162-164 would build:
`FormantClientRequestError(f"Failed to get task summaries... code: {response.status}. error: {response.text}")`,
again without the `retryable` argument. In the code as written this
construction is never reached: evaluating the f-string accesses
`response.status`, which does not exist on a `requests.Response`
(the attribute is `status_code`), so an `AttributeError` is raised
first — see `taskLoop`. -/
def pageFetchError (status : String) (text : String) : FormantClientRequestError :=
  mkFormantError ("Failed to get task summaries... code: " ++ status ++
    ". error: " ++ text)

/-- The `while 1` pagination loop of `get_task_list_for_device_sync`
(lines 149-173) over a backend mapping a page offset to the response
for that offset. Arguments after the colon: fuel (the loop has no bound
of its own), `page_offset`, the `task_summaries` accumulator, and the
number of page requests issued so far; the returned `Nat` is the total
number of page requests. On a non-200 response the code raises
`AttributeError` (not a `FormantClientRequestError`), because line 163
reads `response.status`, an attribute `requests.Response` does not have;
the `.other` branch embeds that. Headers are obtained from the cache each
iteration via `_get_authenticated_headers`; with populated cached
credentials that call returns them without issuing requests (proved
below), so the loop is embedded over the page backend alone. -/
def taskLoop {α : Type} (backend : Nat → PageResp α) (page_size : Nat) :
    Nat → Nat → List α → Nat → Option (PyResult (List α) × Nat)
  | 0, _, _, _ => none
  | fuel + 1, page_offset, task_summaries, reqs =>
      let response := backend page_offset
      if response.status_code ≠ 200 then
        some (.other "AttributeError: status", reqs + 1)
      else
        let acc := task_summaries ++ response.items
        if response.items.length < page_size then some (.ok acc, reqs + 1)
        else taskLoop backend page_size fuel (page_offset + page_size) acc (reqs + 1)

/-- `get_task_list_for_device_sync` (lines 132-173): `page_offset = 0`,
`page_size = 100`, empty accumulator. -/
def get_task_list_for_device_sync {α : Type} (backend : Nat → PageResp α)
    (fuel : Nat) : Option (PyResult (List α) × Nat) :=
  taskLoop backend 100 fuel 0 [] 0

/- Concrete fixtures used by witnesses and counterexamples. -/

/-- Items 0..99, the first full page of the three-page scenario. -/
def page0 : List Nat := List.range 100

/-- Items 100..199, the second full page of the three-page scenario. -/
def page1 : List Nat := (List.range 100).map (fun i => 100 + i)

/-- Items 200..236, the short third page of the three-page scenario. -/
def page2 : List Nat := (List.range 37).map (fun i => 200 + i)

/-- A backend serving pages of sizes 100, 100, 37 at offsets 0, 100, 200. -/
def backendThree : Nat → PageResp Nat := fun off =>
  if off = 0 then ⟨200, page0, ""⟩
  else if off = 100 then ⟨200, page1, ""⟩
  else if off = 200 then ⟨200, page2, ""⟩
  else ⟨200, [], ""⟩

/-- A backend whose first page is empty. -/
def backendEmpty : Nat → PageResp Nat := fun _ => ⟨200, [], ""⟩

/-- A backend answering every page request with HTTP 500, body `boom`. -/
def backendBoom : Nat → PageResp Nat := fun _ => ⟨500, [], "boom"⟩

/-- An operation failing with a retryable error on every invocation. -/
def alwaysFail : Nat → PyResult Nat := fun _ => .fcre (mkFormantError "transient")

/-- An operation failing retryably on invocations 0 and 1, then
returning 7. -/
def failTwiceThenOk : Nat → PyResult Nat := fun i =>
  if i < 2 then .fcre (mkFormantError "transient") else .ok 7

/-- An operation failing with an explicitly non-retryable error. -/
def fatalFirst : Nat → PyResult Nat := fun _ => .fcre ⟨"fatal", false⟩

/-- A login backend answering every login with 200 and token `tok`. -/
def lbOk : Nat → LoginResp := fun _ => ⟨200, "tok", ""⟩

/-- A login backend answering every login with HTTP 500. -/
def lbFail : Nat → LoginResp := fun _ => ⟨500, "", "denied"⟩

/-- A query backend answering 200 with items `[1, 2, 3]`. -/
def qbOk : Nat → QueryResp Nat := fun _ => ⟨200, some [1, 2, 3], "", ""⟩

/-- A query backend answering 200 with a body on which the items
extraction raises `KeyError`. -/
def qbMalformed : Nat → QueryResp Nat := fun _ => ⟨200, none, "KeyError", "bad body"⟩

/-- A query backend answering HTTP 500, body `server error`. -/
def qbStatus : Nat → QueryResp Nat := fun _ => ⟨500, some [], "", "server error"⟩

/-- A fresh client state: empty header cache, no requests issued. -/
def s0 : ClientState := ⟨[], 0, 0⟩

/-- A client state holding cached headers after one successful login. -/
def s1 : ClientState := ⟨bearerHeaders "tok", 1, 0⟩

/- Step lemmas for the retry loops. -/

/-- Exhaustion step of the pure retry loop with `propegrate_error=True`. -/
theorem retryGo_zero_prop {α : Type} (f : Nat → PyResult α) (m i warn : Nat) :
    retryGo f m true 0 i warn = ⟨.fcre (retriesExhaustedError m), warn, i⟩ := by
  simp [retryGo]

/-- Success step of the pure retry loop. -/
theorem retryGo_succ_ok {α : Type} {f : Nat → PyResult α} {i : Nat} {a : α}
    (m : Nat) (p : Bool) (rem warn : Nat) (h : f i = .ok a) :
    retryGo f m p (rem + 1) i warn = ⟨.ok (some a), warn, i + 1⟩ := by
  rw [retryGo, h]

/-- Retryable-failure step of the pure retry loop: log and continue. -/
theorem retryGo_succ_retry {α : Type} {f : Nat → PyResult α} {i : Nat}
    {e : FormantClientRequestError} (m : Nat) (p : Bool) (rem warn : Nat)
    (h : f i = .fcre e) (he : e.retryable = true) :
    retryGo f m p (rem + 1) i warn = retryGo f m p rem (i + 1) (warn + 1) := by
  rw [retryGo, h]
  simp [he]

/-- Non-retryable-failure step of the pure retry loop: immediate re-raise. -/
theorem retryGo_succ_fatal {α : Type} {f : Nat → PyResult α} {i : Nat}
    {e : FormantClientRequestError} (m : Nat) (p : Bool) (rem warn : Nat)
    (h : f i = .fcre e) (he : e.retryable = false) :
    retryGo f m p (rem + 1) i warn = ⟨.fcre e, warn, i + 1⟩ := by
  rw [retryGo, h]
  simp [he]

/-- Exhaustion step of the stateful retry loop with `propegrate_error=True`. -/
theorem retryStGo_zero_prop {α : Type} (f : ClientState → ClientState × PyResult α)
    (m : Nat) (s : ClientState) (warn inv : Nat) :
    retryStGo f m true 0 s warn inv =
      (s, ⟨.fcre (retriesExhaustedError m), warn, inv⟩) := by
  simp [retryStGo]

/-- Success step of the stateful retry loop. -/
theorem retryStGo_succ_ok {α : Type} {f : ClientState → ClientState × PyResult α}
    {s s2 : ClientState} {a : α} (m : Nat) (p : Bool) (rem warn inv : Nat)
    (h : f s = (s2, .ok a)) :
    retryStGo f m p (rem + 1) s warn inv = (s2, ⟨.ok (some a), warn, inv + 1⟩) := by
  rw [retryStGo, h]

/-- Retryable-failure step of the stateful retry loop. -/
theorem retryStGo_succ_retry {α : Type} {f : ClientState → ClientState × PyResult α}
    {s s2 : ClientState} {e : FormantClientRequestError}
    (m : Nat) (p : Bool) (rem warn inv : Nat)
    (h : f s = (s2, .fcre e)) (he : e.retryable = true) :
    retryStGo f m p (rem + 1) s warn inv =
      retryStGo f m p rem s2 (warn + 1) (inv + 1) := by
  rw [retryStGo, h]
  simp [he]

/-- Skipping `k` consecutive retryable failures consumes `k` loop
iterations, advances the invocation index by `k` and emits `k` warnings. -/
theorem retryGo_skip {α : Type} (f : Nat → PyResult α) (m : Nat) (p : Bool) :
    ∀ (k rem i warn : Nat),
      (∀ j, j < k → ∃ e, f (i + j) = .fcre e ∧ e.retryable = true) →
      retryGo f m p (k + rem) i warn = retryGo f m p rem (i + k) (warn + k) := by
  intro k
  induction k with
  | zero => intro rem i warn _; simp
  | succ kk ih =>
      intro rem i warn hfail
      obtain ⟨e, hfe, hret⟩ := hfail 0 (Nat.succ_pos kk)
      rw [show i + 0 = i by omega] at hfe
      rw [show kk + 1 + rem = (kk + rem) + 1 by omega]
      rw [retryGo_succ_retry m p (kk + rem) warn hfe hret]
      have hshift : ∀ j, j < kk → ∃ e2, f (i + 1 + j) = .fcre e2 ∧ e2.retryable = true := by
        intro j hj
        obtain ⟨e2, he2, hr2⟩ := hfail (j + 1) (by omega)
        exact ⟨e2, by rw [show i + 1 + j = i + (j + 1) by omega]; exact he2, hr2⟩
      rw [ih rem (i + 1) (warn + 1) hshift]
      rw [show i + 1 + kk = i + (kk + 1) by omega,
        show warn + 1 + kk = warn + (kk + 1) by omega]

/-- An operation that fails retryably on every invocation exhausts the
whole budget: the loop emits one warning per iteration and ends raising
the bare exhaustion error. -/
theorem retryGo_all_fail {α : Type} (f : Nat → PyResult α) (m : Nat)
    (hall : ∀ i, ∃ e, f i = .fcre e ∧ e.retryable = true) :
    ∀ rem i warn, retryGo f m true rem i warn =
      ⟨.fcre (retriesExhaustedError m), warn + rem, i + rem⟩ := by
  intro rem
  induction rem with
  | zero => intro i warn; simpa using retryGo_zero_prop f m i warn
  | succ r ih =>
      intro i warn
      obtain ⟨e, he, hr⟩ := hall i
      rw [retryGo_succ_retry m true r warn he hr, ih (i + 1) (warn + 1)]
      rw [show warn + 1 + r = warn + (r + 1) by omega,
        show i + 1 + r = i + (r + 1) by omega]

/- Claim theorems. -/

/-- C1: the paginated fetch of `get_task_list_for_device_sync` starts at
offset 0 (by definition it runs `taskLoop` at `page_offset = 0` with an
empty accumulator), appends each page's items to the accumulator and
stops as soon as a page returns strictly fewer than the page size 100
items, including a zero-item page (first conjunct); otherwise it advances
the offset by the page size and continues (second conjunct). For pages of
sizes 100, 100, 37 it issues exactly 3 page requests and returns all 237
items in page-arrival order (third conjunct), and for a first page of
size 0 it returns an empty sequence after exactly 1 request (fourth
conjunct). -/
theorem paginated_fetch_spec :
    (∀ (backend : Nat → PageResp Nat) (fuel offset : Nat) (acc : List Nat) (reqs : Nat),
        (backend offset).status_code = 200 →
        (backend offset).items.length < 100 →
        taskLoop backend 100 (fuel + 1) offset acc reqs =
          some (.ok (acc ++ (backend offset).items), reqs + 1)) ∧
    (∀ (backend : Nat → PageResp Nat) (fuel offset : Nat) (acc : List Nat) (reqs : Nat),
        (backend offset).status_code = 200 →
        ¬ (backend offset).items.length < 100 →
        taskLoop backend 100 (fuel + 1) offset acc reqs =
          taskLoop backend 100 fuel (offset + 100) (acc ++ (backend offset).items) (reqs + 1)) ∧
    (get_task_list_for_device_sync backendThree 10 =
        some (.ok (page0 ++ page1 ++ page2), 3) ∧
      (page0 ++ page1 ++ page2).length = 237) ∧
    (get_task_list_for_device_sync backendEmpty 10 = some (.ok ([] : List Nat), 1)) := by
  refine ⟨?_, ?_, ⟨by decide, by decide⟩, by decide⟩
  · intro backend fuel offset acc reqs h200 hshort
    simp [taskLoop, h200, hshort]
  · intro backend fuel offset acc reqs h200 hlong
    simp [taskLoop, h200, hlong]

/-- Witness for C1: the short-page conjunct applied to the empty-page
backend at offset 0. -/
theorem paginated_fetch_spec_apply :
    taskLoop backendEmpty 100 (0 + 1) 0 [] 0 =
      some (.ok (([] : List Nat) ++ (backendEmpty 0).items), 0 + 1) :=
  paginated_fetch_spec.1 backendEmpty 0 0 [] 0 (by decide) (by decide)

/-- C6 (code bug at line 163): when a page fetch returns a non-200
status, the code aborts after that single request without returning any
partial accumulated result — but the exception that propagates is an
`AttributeError`, not the intended `FormantClientRequestError` carrying
`response.text`: line 163 reads `response.status`, an attribute
`requests.Response` does not have, so the f-string of the intended error
raises before the error is constructed (first conjunct). The second
conjunct shows the decorator of `get_task_list_for_device_sync` does not
catch that exception: an attempt raising it propagates after exactly one
invocation with no retry logged. -/
theorem page_fetch_failure_attribute_error :
    get_task_list_for_device_sync backendBoom 5 =
      some (.other "AttributeError: status", 1) ∧
    formant_client_retry_on_failure 5 true
        (fun _ => (.other "AttributeError: status" : PyResult (List Nat))) =
      ⟨.other "AttributeError: status", 0, 1⟩ := by
  exact ⟨by decide, by decide⟩

/-- C2: for every budget `n ≥ 1`, an operation that fails with a
retryable `FormantClientRequestError` on exactly its first `k`
invocations (`k < n`) and succeeds on invocation `k + 1` makes the
wrapper produced by `formant_client_retry_on_failure(n)` return the
operation's success value, after logging exactly `k` retry warnings and
invoking the operation exactly `k + 1` times. -/
theorem retry_returns_success_after_transient_failures {α : Type}
    (n k : Nat) (f : Nat → PyResult α) (a : α)
    (hn : 1 ≤ n) (hk : k < n)
    (hfail : ∀ j, j < k → ∃ e, f j = .fcre e ∧ e.retryable = true)
    (hok : f k = .ok a) :
    formant_client_retry_on_failure n true f = ⟨.ok (some a), k, k + 1⟩ := by
  unfold formant_client_retry_on_failure
  obtain ⟨r, hr⟩ : ∃ r, n = k + (r + 1) := ⟨n - k - 1, by omega⟩
  rw [hr]
  rw [retryGo_skip f (k + (r + 1)) true k (r + 1) 0 0
    (by intro j hj; simpa using hfail j hj)]
  simp only [Nat.zero_add]
  rw [retryGo_succ_ok (k + (r + 1)) true r k hok]

/-- Witness for C2: two transient failures then success under a budget
of 5 returns the value 7 with exactly 2 warnings and 3 invocations. -/
theorem retry_returns_success_after_transient_failures_apply :
    formant_client_retry_on_failure 5 true failTwiceThenOk = ⟨.ok (some 7), 2, 2 + 1⟩ :=
  retry_returns_success_after_transient_failures 5 2 failTwiceThenOk 7
    (by decide) (by decide)
    (by
      intro j hj
      exact ⟨mkFormantError "transient", by simp [failTwiceThenOk, hj], rfl⟩)
    (by decide)

/-- C8: if the wrapped operation fails with a `FormantClientRequestError`
whose `retryable` field is false on invocation `k + 1` (after `k`
retryable failures, `k < n`), the wrapper re-raises that same error
immediately: the operation is invoked exactly `k + 1` times — none of the
remaining budget is used — and no warning is logged for that failure
(exactly the `k` earlier warnings are emitted). -/
theorem nonretryable_error_reraised_immediately {α : Type}
    (n k : Nat) (f : Nat → PyResult α) (e : FormantClientRequestError)
    (hk : k < n)
    (hfail : ∀ j, j < k → ∃ e2, f j = .fcre e2 ∧ e2.retryable = true)
    (hfatal : f k = .fcre e) (hnr : e.retryable = false) :
    formant_client_retry_on_failure n true f = ⟨.fcre e, k, k + 1⟩ := by
  unfold formant_client_retry_on_failure
  obtain ⟨r, hr⟩ : ∃ r, n = k + (r + 1) := ⟨n - k - 1, by omega⟩
  rw [hr]
  rw [retryGo_skip f (k + (r + 1)) true k (r + 1) 0 0
    (by intro j hj; simpa using hfail j hj)]
  simp only [Nat.zero_add]
  rw [retryGo_succ_fatal (k + (r + 1)) true r k hfatal hnr]

/-- Witness for C8: a non-retryable failure on attempt 1 of a 5-attempt
budget stops immediately with no warning logged. -/
theorem nonretryable_error_reraised_immediately_apply :
    formant_client_retry_on_failure 5 true fatalFirst =
      ⟨.fcre ⟨"fatal", false⟩, 0, 0 + 1⟩ :=
  nonretryable_error_reraised_immediately 5 0 fatalFirst ⟨"fatal", false⟩
    (by decide) (by intro j hj; omega) (by decide) (by decide)

/-- C3 counterexample: running the wrapper with budget 5 over an
operation that always fails retryably raises exactly the bare
"retries exhausted" error, and that error's `retryable` field is NOT
false — the Python constructor default (line 10) is `True`, so the claim
that the exhaustion error is classified non-retryable fails on this
concrete run. -/
theorem exhaustion_error_marked_retryable_cex :
    (formant_client_retry_on_failure 5 true alwaysFail).result =
      .fcre (retriesExhaustedError 5) ∧
    retriesExhaustedError 5 = ⟨"Request failed after 5 retries", true⟩ ∧
    ((retriesExhaustedError 5).retryable = false) = False := by
  refine ⟨by decide, by decide, eq_false (by decide)⟩

/-- C3 amended: the "retries exhausted" error raised when all
`max_retries` invocations fail retryably is constructed bare, so by the
constructor default its `retryable` field is TRUE: it is classified
retryable, not non-retryable. -/
theorem exhaustion_error_is_retryable {α : Type} (n : Nat) (f : Nat → PyResult α)
    (hall : ∀ i, ∃ e, f i = .fcre e ∧ e.retryable = true) :
    (formant_client_retry_on_failure n true f).result =
      .fcre (retriesExhaustedError n) ∧
    (retriesExhaustedError n).retryable = true := by
  constructor
  · unfold formant_client_retry_on_failure
    rw [retryGo_all_fail f n hall n 0 0]
  · rfl

/-- Witness for C3's amended claim, at budget 5 over an operation that
always fails retryably. -/
theorem exhaustion_error_is_retryable_apply :
    (formant_client_retry_on_failure 5 true alwaysFail).result =
      .fcre (retriesExhaustedError 5) ∧
    (retriesExhaustedError 5).retryable = true :=
  exhaustion_error_is_retryable 5 alwaysFail
    (fun _ => ⟨mkFormantError "transient", rfl, rfl⟩)

/-- With empty cached headers and a 200 response to the next login POST,
`_get_authenticated_headers` issues exactly one login request, stores the
bearer and content-type headers, and returns them. -/
theorem get_headers_fresh (lb : Nat → LoginResp) (n qn : Nat)
    (h : (lb n).status_code = 200) :
    get_authenticated_headers lb ⟨[], n, qn⟩ =
      (⟨bearerHeaders (lb n).accessToken, n + 1, qn⟩,
        .ok (bearerHeaders (lb n).accessToken)) := by
  have hatt : authenticate_attempt lb ⟨[], n, qn⟩ =
      (⟨bearerHeaders (lb n).accessToken, n + 1, qn⟩, .ok ()) := by
    simp [authenticate_attempt, h]
  have h1 : authenticate lb ⟨[], n, qn⟩ =
      (⟨bearerHeaders (lb n).accessToken, n + 1, qn⟩, ⟨.ok (some ()), 0, 1⟩) := by
    unfold authenticate
    exact retryStGo_succ_ok NUM_RETRIES true 4 0 0 hatt
  unfold get_authenticated_headers
  rw [h1]

/-- With non-empty cached headers, `_get_authenticated_headers` returns
them unchanged and issues no requests: the state is untouched. -/
theorem get_headers_cached (lb : Nat → LoginResp) (s : ClientState)
    (hne : s.authenticated_headers ≠ []) :
    get_authenticated_headers lb s = (s, .ok s.authenticated_headers) := by
  have hatt : authenticate_attempt lb s = (s, .ok ()) := by
    unfold authenticate_attempt
    rw [if_pos (List.length_pos.mpr hne)]
  have h1 : authenticate lb s = (s, ⟨.ok (some ()), 0, 1⟩) := by
    unfold authenticate
    exact retryStGo_succ_ok NUM_RETRIES true 4 0 0 hatt
  unfold get_authenticated_headers
  rw [h1]

/-- C4: the credential cache performs exactly one login. First conjunct:
a header-obtaining call on a state with empty cached headers (a fresh
client, or one whose headers were cleared) issues exactly one login POST
— the login counter advances from `n` to `n + 1` — and stores the
Bearer-token and content-type headers. Second conjunct: with cached
headers every call returns them unchanged with zero additional requests.
Third conjunct: clearing the cached headers of a logged-in client (the
reset the spec describes; the code exposes no dedicated method, only the
`_authenticated_headers` attribute itself, whose emptiness is the cache
flag at line 73) makes the next call issue exactly one more login
request. -/
theorem credential_cache_single_login :
    (∀ (lb : Nat → LoginResp) (n qn : Nat), (lb n).status_code = 200 →
        get_authenticated_headers lb ⟨[], n, qn⟩ =
          (⟨bearerHeaders (lb n).accessToken, n + 1, qn⟩,
            .ok (bearerHeaders (lb n).accessToken))) ∧
    (∀ (lb : Nat → LoginResp) (s : ClientState), s.authenticated_headers ≠ [] →
        get_authenticated_headers lb s = (s, .ok s.authenticated_headers)) ∧
    (∀ (lb : Nat → LoginResp) (s : ClientState), s.authenticated_headers ≠ [] →
        (lb s.loginRequests).status_code = 200 →
        get_authenticated_headers lb { s with authenticated_headers := [] } =
          ({ s with
              authenticated_headers := bearerHeaders (lb s.loginRequests).accessToken,
              loginRequests := s.loginRequests + 1 },
            .ok (bearerHeaders (lb s.loginRequests).accessToken))) := by
  refine ⟨get_headers_fresh, get_headers_cached, ?_⟩
  intro lb s _hne h
  obtain ⟨hs, lr, qr⟩ := s
  exact get_headers_fresh lb lr qr h

/-- Witness for C4: one successful login from the fresh state, then a
second call returning the cached headers unchanged. -/
theorem credential_cache_single_login_apply :
    get_authenticated_headers lbOk ⟨[], 0, 0⟩ =
      (⟨bearerHeaders (lbOk 0).accessToken, 0 + 1, 0⟩,
        .ok (bearerHeaders (lbOk 0).accessToken)) ∧
    get_authenticated_headers lbOk s1 = (s1, .ok s1.authenticated_headers) :=
  ⟨credential_cache_single_login.1 lbOk 0 0 rfl,
    credential_cache_single_login.2.1 lbOk s1 (by decide)⟩

/-- C5 counterexample: a `query_robots` attempt on a client with cached
headers receiving a 200 response whose body makes the items extraction
raise produces the error of line 126 — and that error's `retryable`
field is NOT false: it is constructed without the `retryable` argument,
so the constructor default `True` applies, contradicting the claimed
non-retryable classification. -/
theorem query_malformed_body_error_retryable_cex :
    (query_robots_attempt lbOk qbMalformed s1).2 = .fcre (queryItemsError "KeyError") ∧
    queryItemsError "KeyError" = ⟨"Failed to query robots: KeyError", true⟩ ∧
    ((queryItemsError "KeyError").retryable = false) = False := by
  refine ⟨by decide, by decide, eq_false (by decide)⟩

/-- C5 amended: `query_robots` fails with a RETRYABLE
`FormantClientRequestError` in both failure cases — when a 200 response
has a malformed body (the extraction error of line 126 carries the
constructor default `retryable=True`) and on any non-200 status (line
128). Stated for an attempt on a client with cached headers, so the
query branch is reached without login traffic. -/
theorem query_robots_error_classification {α : Type}
    (lb : Nat → LoginResp) (qb : Nat → QueryResp α) (s : ClientState)
    (hcached : s.authenticated_headers ≠ []) :
    ((qb s.queryRequests).status_code = 200 → (qb s.queryRequests).items = none →
        (query_robots_attempt lb qb s).2 =
          .fcre (queryItemsError (qb s.queryRequests).errText) ∧
        (queryItemsError (qb s.queryRequests).errText).retryable = true) ∧
    ((qb s.queryRequests).status_code ≠ 200 →
        (query_robots_attempt lb qb s).2 =
          .fcre (queryStatusError (qb s.queryRequests).text) ∧
        (queryStatusError (qb s.queryRequests).text).retryable = true) := by
  have hh := get_headers_cached lb s hcached
  constructor
  · intro h200 hnone
    refine ⟨?_, rfl⟩
    unfold query_robots_attempt
    rw [hh]
    simp [h200, hnone]
  · intro hne
    refine ⟨?_, rfl⟩
    unfold query_robots_attempt
    rw [hh]
    simp [hne]

/-- Witness for C5's amended claim: the non-200 branch at a concrete
backend answering HTTP 500. -/
theorem query_robots_error_classification_apply :
    (query_robots_attempt lbOk qbStatus s1).2 =
      .fcre (queryStatusError (qbStatus s1.queryRequests).text) ∧
    (queryStatusError (qbStatus s1.queryRequests).text).retryable = true :=
  (query_robots_error_classification lbOk qbStatus s1 (by decide)).2 (by decide)

/-- If every `FormantClientRequestError` outcome of the attempt function
is retryable, the only such error the pure retry loop can raise is the
exhaustion error: the immediate re-raise branch is never the exit. -/
theorem retryGo_escape {α : Type} (f : Nat → PyResult α) (m : Nat)
    (hf : ∀ j e2, f j = .fcre e2 → e2.retryable = true) :
    ∀ (rem i warn : Nat) (e : FormantClientRequestError),
      (retryGo f m true rem i warn).result = .fcre e →
      e = retriesExhaustedError m := by
  intro rem
  induction rem with
  | zero =>
      intro i warn e h
      rw [retryGo_zero_prop] at h
      simpa using h.symm
  | succ r ih =>
      intro i warn e h
      rcases hfi : f i with a | e2 | m2
      · rw [retryGo_succ_ok m true r warn hfi] at h
        simp at h
      · rw [retryGo_succ_retry m true r warn hfi (hf i e2 hfi)] at h
        exact ih (i + 1) (warn + 1) e h
      · rw [retryGo] at h
        rw [hfi] at h
        simp at h

/-- The same for the stateful retry loop: with only retryable errors
from the attempts, any `FormantClientRequestError` escaping the wrapper
is the exhaustion error. -/
theorem retryStGo_escape {α : Type} (f : ClientState → ClientState × PyResult α)
    (m : Nat) (hf : ∀ s2 e2, (f s2).2 = .fcre e2 → e2.retryable = true) :
    ∀ (rem : Nat) (s : ClientState) (warn inv : Nat)
      (e : FormantClientRequestError),
      ((retryStGo f m true rem s warn inv).2).result = .fcre e →
      e = retriesExhaustedError m := by
  intro rem
  induction rem with
  | zero =>
      intro s warn inv e h
      rw [retryStGo_zero_prop] at h
      simpa using h.symm
  | succ r ih =>
      intro s warn inv e h
      rcases hfs : f s with ⟨s2, r2⟩
      rcases r2 with a | e2 | m2
      · rw [retryStGo_succ_ok m true r warn inv hfs] at h
        simp at h
      · have hr2 : e2.retryable = true := hf s e2 (by rw [hfs])
        rw [retryStGo_succ_retry m true r warn inv hfs hr2] at h
        exact ih s2 (warn + 1) (inv + 1) e h
      · rw [retryStGo] at h
        rw [hfs] at h
        simp at h

/-- C9: every `FormantClientRequestError` construction in
`formant_client.py` — the login failure (line 94), the two query
failures (lines 126 and 128), the page-fetch failure the text of line
162 would build, and the retries-exhausted error (line 39) — omits the
`retryable` argument, so by the constructor default each carries
`retryable = True` (first five conjuncts). Consequently the
non-retryable fast path of the retry wrapper (the immediate re-raise at
lines 31-32) is unreachable for errors originating in this module: for
any attempt function all of whose classified errors are retryable, the
only `FormantClientRequestError` either wrapper can raise is the
exhaustion error (last two conjuncts). -/
theorem module_errors_all_retryable :
    (∀ t, (authFailureError t).retryable = true) ∧
    (∀ t, (queryItemsError t).retryable = true) ∧
    (∀ t, (queryStatusError t).retryable = true) ∧
    (∀ c t, (pageFetchError c t).retryable = true) ∧
    (∀ m, (retriesExhaustedError m).retryable = true) ∧
    (∀ (α : Type) (f : Nat → PyResult α) (m rem i warn : Nat)
        (e : FormantClientRequestError),
        (∀ j e2, f j = .fcre e2 → e2.retryable = true) →
        (retryGo f m true rem i warn).result = .fcre e →
        e = retriesExhaustedError m) ∧
    (∀ (α : Type) (f : ClientState → ClientState × PyResult α) (m rem : Nat)
        (s : ClientState) (warn inv : Nat) (e : FormantClientRequestError),
        (∀ s2 e2, (f s2).2 = .fcre e2 → e2.retryable = true) →
        ((retryStGo f m true rem s warn inv).2).result = .fcre e →
        e = retriesExhaustedError m) := by
  refine ⟨fun t => rfl, fun t => rfl, fun t => rfl, fun c t => rfl, fun m => rfl,
    ?_, ?_⟩
  · intro α f m rem i warn e hf h
    exact retryGo_escape f m hf rem i warn e h
  · intro α f m rem s warn inv e hf h
    exact retryStGo_escape f m hf rem s warn inv e h

/-- Witness for C9: the login-failure error is retryable, and the only
classified error escaping a concrete all-retryable run (budget 5 of
`alwaysFail`) is the exhaustion error. -/
theorem module_errors_all_retryable_apply :
    (authFailureError "denied").retryable = true ∧
    retriesExhaustedError 5 = retriesExhaustedError 5 :=
  ⟨module_errors_all_retryable.1 "denied",
    module_errors_all_retryable.2.2.2.2.2.1 Nat alwaysFail 5 5 0 0
      (retriesExhaustedError 5)
      (by
        intro j e2 h
        have he2 : e2 = mkFormantError "transient" := by
          simpa [alwaysFail] using h.symm
        rw [he2]
        rfl)
      (by decide)⟩

/-- One `_authenticate` attempt on empty cached headers against a login
backend whose next response is non-200: the login counter advances by
one, the headers stay empty, and the line-94 error is raised. -/
theorem authenticate_attempt_fail (lb : Nat → LoginResp) (s : ClientState)
    (hs : s.authenticated_headers = [])
    (hf : (lb s.loginRequests).status_code ≠ 200) :
    authenticate_attempt lb s =
      ({ s with loginRequests := s.loginRequests + 1 },
        .fcre (authFailureError (lb s.loginRequests).text)) := by
  unfold authenticate_attempt
  rw [hs]
  simp [hf]

/-- Against a login backend that always fails, the inner retry loop over
`_authenticate` attempts from an empty header cache issues one login POST
per iteration, keeps the headers empty, and exhausts: `rem` iterations
issue exactly `rem` login requests. -/
theorem retryStGo_auth_exhaust (lb : Nat → LoginResp)
    (hlb : ∀ k, (lb k).status_code ≠ 200) (m : Nat) :
    ∀ (rem : Nat) (s : ClientState) (warn inv : Nat),
      s.authenticated_headers = [] →
      retryStGo (authenticate_attempt lb) m true rem s warn inv =
        ({ s with loginRequests := s.loginRequests + rem },
          ⟨.fcre (retriesExhaustedError m), warn + rem, inv + rem⟩) := by
  intro rem
  induction rem with
  | zero =>
      intro s warn inv hs
      obtain ⟨sh, sl, sq⟩ := s
      rw [retryStGo_zero_prop]
      simp
  | succ r ih =>
      intro s warn inv hs
      have hstep := authenticate_attempt_fail lb s hs (hlb s.loginRequests)
      rw [retryStGo_succ_retry m true r warn inv hstep rfl]
      rw [ih { s with loginRequests := s.loginRequests + 1 } (warn + 1) (inv + 1) hs]
      rw [show s.loginRequests + 1 + r = s.loginRequests + (r + 1) by omega,
        show warn + 1 + r = warn + (r + 1) by omega,
        show inv + 1 + r = inv + (r + 1) by omega]

/-- One `query_robots` attempt from empty cached headers against an
always-failing login backend: the inner `_authenticate` wrapper issues
`NUM_RETRIES = 5` login POSTs, then its exhaustion error propagates out
of `_get_authenticated_headers` before any query POST is issued. -/
theorem query_robots_attempt_nologin {α : Type} (lb : Nat → LoginResp)
    (qb : Nat → QueryResp α) (s : ClientState)
    (hlb : ∀ k, (lb k).status_code ≠ 200)
    (hs : s.authenticated_headers = []) :
    query_robots_attempt lb qb s =
      ({ s with loginRequests := s.loginRequests + 5 },
        .fcre (retriesExhaustedError 5)) := by
  unfold query_robots_attempt get_authenticated_headers authenticate
  rw [retryStGo_auth_exhaust lb hlb NUM_RETRIES NUM_RETRIES s 0 0 hs]
  rfl

/-- Against an always-failing login backend, the outer retry loop over
`query_robots` attempts from an empty header cache issues 5 login POSTs
per outer iteration (the cache stays empty across attempts) and
exhausts. -/
theorem retryStGo_query_exhaust {α : Type} (lb : Nat → LoginResp)
    (qb : Nat → QueryResp α) (hlb : ∀ k, (lb k).status_code ≠ 200) (m : Nat) :
    ∀ (rem : Nat) (s : ClientState) (warn inv : Nat),
      s.authenticated_headers = [] →
      retryStGo (query_robots_attempt lb qb) m true rem s warn inv =
        ({ s with loginRequests := s.loginRequests + 5 * rem },
          ⟨.fcre (retriesExhaustedError m), warn + rem, inv + rem⟩) := by
  intro rem
  induction rem with
  | zero =>
      intro s warn inv hs
      obtain ⟨sh, sl, sq⟩ := s
      rw [retryStGo_zero_prop]
      simp
  | succ r ih =>
      intro s warn inv hs
      have hstep := query_robots_attempt_nologin lb qb s hlb hs
      rw [retryStGo_succ_retry m true r warn inv hstep rfl]
      rw [ih { s with loginRequests := s.loginRequests + 5 } (warn + 1) (inv + 1) hs]
      rw [show s.loginRequests + 5 + 5 * r = s.loginRequests + 5 * (r + 1) by omega,
        show warn + 1 + r = warn + (r + 1) by omega,
        show inv + 1 + r = inv + (r + 1) by omega]

/-- C10: `_authenticate` and `query_robots` each carry their own
`NUM_RETRIES = 5` retry wrapper, and the inner exhaustion error is
retryable, so a single `query_robots` call on a client with empty cached
headers whose every login POST fails retryably issues exactly
`NUM_RETRIES * NUM_RETRIES = 25` login POSTs — 5 inner login attempts in
each of the 5 outer attempts — and then raises the outer
retries-exhausted error (after 5 outer retry warnings and 5 outer
invocations, with no query POST ever issued: only the login counter of
the state changes). -/
theorem nested_retry_25_login_requests {α : Type} (lb : Nat → LoginResp)
    (qb : Nat → QueryResp α) (s : ClientState)
    (hlb : ∀ k, (lb k).status_code ≠ 200)
    (hs : s.authenticated_headers = []) :
    query_robots lb qb s =
      ({ s with loginRequests := s.loginRequests + 25 },
        ⟨.fcre (retriesExhaustedError 5), 5, 5⟩) ∧
    NUM_RETRIES * NUM_RETRIES = 25 := by
  refine ⟨?_, rfl⟩
  unfold query_robots
  rw [retryStGo_query_exhaust lb qb hlb NUM_RETRIES NUM_RETRIES s 0 0 hs]
  simp [NUM_RETRIES]

/-- Witness for C10: a fresh client against an always-denying login
backend issues exactly 25 login POSTs and no query POSTs. -/
theorem nested_retry_25_login_requests_apply :
    (query_robots lbFail qbOk s0 =
      ({ s0 with loginRequests := s0.loginRequests + 25 },
        ⟨.fcre (retriesExhaustedError 5), 5, 5⟩)) ∧
    NUM_RETRIES * NUM_RETRIES = 25 :=
  nested_retry_25_login_requests lbFail qbOk s0
    (fun _ => (by decide : (500 : Nat) ≠ 200)) rfl

/-- If the pagination loop terminates normally with `n` total page
requests from a state that had already issued `reqs` of them, the result
is the accumulator followed by the concatenation, in fetch order, of the
pages at offsets `offset, offset + 100, ...` for the `n - reqs` requests
it issued. -/
theorem taskLoop_ok_concat {α : Type} (backend : Nat → PageResp α) :
    ∀ (fuel offset : Nat) (acc : List α) (reqs : Nat) (res : List α) (n : Nat),
      taskLoop backend 100 fuel offset acc reqs = some (.ok res, n) →
      reqs < n ∧
        res = acc ++
          (((List.range (n - reqs)).map
            (fun i => (backend (offset + 100 * i)).items)).flatten) := by
  intro fuel
  induction fuel with
  | zero =>
      intro offset acc reqs res n h
      simp [taskLoop] at h
  | succ fl ih =>
      intro offset acc reqs res n h
      simp only [taskLoop] at h
      by_cases h200 : (backend offset).status_code ≠ 200
      · rw [if_pos h200] at h
        simp at h
      · rw [if_neg h200] at h
        by_cases hshort : (backend offset).items.length < 100
        · rw [if_pos hshort] at h
          simp only [Option.some.injEq, Prod.mk.injEq] at h
          obtain ⟨hres, hn⟩ := h
          have hres2 : acc ++ (backend offset).items = res := by
            simpa using hres
          refine ⟨by omega, ?_⟩
          rw [show n - reqs = 1 by omega, show List.range 1 = [0] from rfl]
          simp [← hres2]
        · rw [if_neg hshort] at h
          obtain ⟨hlt, hres⟩ := ih (offset + 100) (acc ++ (backend offset).items)
            (reqs + 1) res n h
          refine ⟨by omega, ?_⟩
          rw [show n - reqs = (n - (reqs + 1)) + 1 by omega,
            List.range_succ_eq_map]
          have harg : ∀ i, offset + 100 * Nat.succ i = offset + 100 + 100 * i := by
            intro i
            omega
          simp only [List.map_cons, List.map_map, List.flatten_cons,
            Function.comp_def, harg, Nat.mul_zero, Nat.add_zero]
          rw [hres, List.append_assoc]

/-- C7: whatever page sequence the backend serves, the aggregated result
of `get_task_list_for_device_sync` is exactly the concatenation, in
fetch order, of the pages returned for its `n` requests (issued at
offsets `0, 100, ..., 100 * (n - 1)`); hence its length is the sum of
the page lengths, item order is page-arrival order, and the fetch layer
neither drops nor duplicates items. -/
theorem aggregation_is_page_concatenation {α : Type}
    (backend : Nat → PageResp α) (fuel : Nat) (res : List α) (n : Nat)
    (h : get_task_list_for_device_sync backend fuel = some (.ok res, n)) :
    res = ((List.range n).map (fun i => (backend (100 * i)).items)).flatten ∧
    res.length =
      (((List.range n).map (fun i => ((backend (100 * i)).items).length)).sum) := by
  obtain ⟨hlt, heq⟩ := taskLoop_ok_concat backend fuel 0 [] 0 res n h
  have hres : res =
      ((List.range n).map (fun i => (backend (100 * i)).items)).flatten := by
    simpa using heq
  refine ⟨hres, ?_⟩
  rw [hres]
  simp [List.length_flatten, List.map_map, Function.comp_def]

/-- Witness for C7: the three-page backend aggregates to the
concatenation of its pages, of length 100 + 100 + 37. -/
theorem aggregation_is_page_concatenation_apply :
    page0 ++ page1 ++ page2 =
      ((List.range 3).map (fun i => (backendThree (100 * i)).items)).flatten ∧
    (page0 ++ page1 ++ page2).length =
      (((List.range 3).map (fun i => ((backendThree (100 * i)).items).length)).sum) :=
  aggregation_is_page_concatenation backendThree 10 (page0 ++ page1 ++ page2) 3
    (by decide)

end Formant
